import Mathlib

/-!
Verification of the state-synchronization core of an Eight Sleep
thermostat bridge plugin, against its TypeScript sources.

The development shallowly embeds the relevant classes:
* `TwoWayTempMapper` — the bidirectional level/temperature mapping
  (`src/twoWayTempMapper.ts`);
* `TwoWayTempMapperV2` — the later revision of the mapper that also keeps
  Celsius tables (used by the accessory layer);
* `EightSleepThermostatAccessory` — the pure operating-state reconciler and
  the sent/received level mismatch check (`platformAccessory.ts`);
* `EightSleepConnection` — session preparation/validation and primary-user
  resolution (`eightSleepConnection.ts`);
* `PlatformClientAdapter` / `AccessoryClientAdapter` — the adaptive polling
  caches (`clientAdapter.ts`).

JavaScript idioms are modelled explicitly: `Record` lookups return
`Option` (for `undefined`), truthiness tests on numbers treat `0` as
false, truthiness tests on strings treat `""` as false, and
`Math.round(x)` is round-half-toward-positive-infinity.
-/

set_option maxRecDepth 100000

/-- JS truthiness of a `number | undefined` value: `undefined` and `0`
are falsy. -/
def jsFalsy : Option Int → Bool
  | none => true
  | some v => v == 0

/-- `Math.round (a / b)` for integers `a`, `b` with `b > 0`, computed
exactly: `⌊a/b + 1/2⌋ = ⌊(2a+b)/(2b)⌋`.  (The source computes the slope in
floating point; for every level in `[-100, 100]` the double-precision
result agrees with this exact value, including the tie `19·44/88 = 9.5`
at level `-45`, which IEEE doubles also represent exactly.) -/
def jsRoundDiv (a b : Int) : Int := Int.fdiv (2 * a + b) (2 * b)

namespace TwoWayTempMapper

/-! ### `src/twoWayTempMapper.ts` -/

-- Min & max cooling temps on thermostat
def cooling_temp_start : Int := 61
def cooling_temp_end : Int := 80

-- Range of cooling levels for client
def cooling_level_start : Int := -89
def cooling_level_end : Int := -1

-- Min & max heating temps on thermostat
def heating_temp_start : Int := 81
def heating_temp_end : Int := 113

-- Range of heating levels for client
def heating_level_start : Int := 2
def heating_level_end : Int := 101

/-- `getCoolingTemp`: `cooling_temp_start + Math.round(slope * (level - cooling_level_start))`
with `slope = (cooling_temp_end - cooling_temp_start) / (cooling_level_end - cooling_level_start)`. -/
def getCoolingTemp (level : Int) : Int :=
  cooling_temp_start +
    jsRoundDiv ((cooling_temp_end - cooling_temp_start) * (level - cooling_level_start))
      (cooling_level_end - cooling_level_start)

/-- `getHeatingTemp`: same interpolation with the heating anchors. -/
def getHeatingTemp (level : Int) : Int :=
  heating_temp_start +
    jsRoundDiv ((heating_temp_end - heating_temp_start) * (level - heating_level_start))
      (heating_level_end - heating_level_start)

/-- `calculateTempFrom`: the three-segment piecewise map from level to °F. -/
def calculateTempFrom (level : Int) : Int :=
  if level ≤ -89 then
    50 - (-100 - level)
  else if level ≤ cooling_level_end then
    getCoolingTemp level
  else
    getHeatingTemp level

/-- The two `Record<number, number>` tables of the class.  A JS record is
modelled as an association list where the most recent write is first, so
`List.lookup` returns the latest written value and `none` stands for
`undefined`. -/
structure MapperState where
  tempsF : List (Int × Int)
  levels : List (Int × Int)

/-- `updateRecords(temp, level)`:
`this.levels[level] = temp;` (unconditional) and
`if (!this.tempsF[temp]) { this.tempsF[temp] = level; }` — the guard is JS
falsiness, so an absent entry (and, vacuously here, a stored `0`) is
overwritten. -/
def updateRecords (st : MapperState) (temp level : Int) : MapperState :=
  { levels := (level, temp) :: st.levels
    tempsF :=
      if jsFalsy (st.tempsF.lookup temp) then (temp, level) :: st.tempsF
      else st.tempsF }

/-- The levels `-100, -99, …, 100` in loop order. -/
def levelRange : List Int := (List.range 201).map (fun (i : Nat) => (i : Int) - 100)

/-- `generateMaps`: `for (let lvl = -100; lvl <= 100; lvl++) updateRecords(calculateTempFrom(lvl), lvl)`. -/
def generateMaps : MapperState :=
  levelRange.foldl (fun st lvl => updateRecords st (calculateTempFrom lvl) lvl)
    { tempsF := [], levels := [] }

/-- `export const tempMapper = new TwoWayTempMapper()`. -/
def tempMapper : MapperState := generateMaps

/-- `getFahrenheitFrom(level)` = `this.levels[level]`. -/
def getFahrenheitFrom (level : Int) : Option Int := tempMapper.levels.lookup level

/-- `getLevelFromFahrenheit(degF)` = `this.tempsF[degF]`. -/
def getLevelFromFahrenheit (degF : Int) : Option Int := tempMapper.tempsF.lookup degF

theorem mem_levelRange {L : Int} : L ∈ levelRange ↔ -100 ≤ L ∧ L ≤ 100 := by
  constructor
  · intro h
    rw [levelRange, List.mem_map] at h
    obtain ⟨i, hi, hEq⟩ := h
    rw [List.mem_range] at hi
    omega
  · intro h
    rw [levelRange, List.mem_map]
    exact ⟨(L + 100).toNat, List.mem_range.mpr (by omega), by omega⟩

/-- The generated forward table agrees with `calculateTempFrom` on every
level of the loop range. -/
theorem forward_eq : ∀ L ∈ levelRange, getFahrenheitFrom L = some (calculateTempFrom L) := by
  decide

/-- For every level of the loop range, the inverse table hits, returns a
level back in range, and that level produces the same temperature. -/
theorem roundtrip_all : ∀ L ∈ levelRange,
    ((getLevelFromFahrenheit (calculateTempFrom L)).isSome = true) ∧
    (-100 ≤ (getLevelFromFahrenheit (calculateTempFrom L)).getD 0 ∧
      (getLevelFromFahrenheit (calculateTempFrom L)).getD 0 ≤ 100) ∧
    calculateTempFrom ((getLevelFromFahrenheit (calculateTempFrom L)).getD 0) =
      calculateTempFrom L := by
  decide

/-- One-step monotonicity of the piecewise map. -/
theorem mono_adj : ∀ L ∈ levelRange, calculateTempFrom L ≤ calculateTempFrom (L + 1) := by
  decide

set_option maxHeartbeats 4000000 in
/-- If a level is the lowest one of the loop range producing its
temperature, the inverse table maps that temperature back to it. -/
theorem tie_break_all : ∀ L1 ∈ levelRange,
    (∀ L0 ∈ levelRange, L0 < L1 → calculateTempFrom L0 ≠ calculateTempFrom L1) →
    getLevelFromFahrenheit (calculateTempFrom L1) = some L1 := by
  decide

/-- `calculateTempFrom` is monotone on `[-100, 100]`. -/
theorem calc_mono (L1 L2 : Int) (h1 : -100 ≤ L1) (h12 : L1 ≤ L2) (h2 : L2 ≤ 100) :
    calculateTempFrom L1 ≤ calculateTempFrom L2 := by
  have key : ∀ n, L1 ≤ n → (n ≤ 100 → calculateTempFrom L1 ≤ calculateTempFrom n) := by
    refine Int.le_induction ?_ ?_
    · intro _
      exact le_refl _
    · intro n hLn ih hn1
      have hadj := mono_adj n (mem_levelRange.mpr ⟨by omega, by omega⟩)
      exact le_trans (ih (by omega)) hadj
  exact key L2 h12 h2

/-- C1.  Tie-break determinism of the inverse temperature map: when two
distinct in-range levels `L1 < L2` both map to the temperature `T` and
`L1` is the lowest in-range level mapping to `T`, the inverse lookup
`getLevelFromFahrenheit T` returns `L1`: the table is populated
first-write-wins during construction. -/
theorem inverse_tie_break_lowest_level (L1 L2 T : Int)
    (ha : -100 ≤ L1) (hb : L1 < L2) (hc : L2 ≤ 100)
    (h1 : getFahrenheitFrom L1 = some T) (h2 : getFahrenheitFrom L2 = some T)
    (hlow : ∀ L0, -100 ≤ L0 → L0 < L1 → getFahrenheitFrom L0 ≠ some T) :
    getLevelFromFahrenheit T = some L1 := by
  have hm1 : L1 ∈ levelRange := mem_levelRange.mpr ⟨ha, by omega⟩
  rw [forward_eq L1 hm1] at h1
  have hT := Option.some.inj h1
  subst hT
  exact tie_break_all L1 hm1 (fun L0 hm0 hlt hEq =>
    hlow L0 (mem_levelRange.mp hm0).1 hlt (by rw [forward_eq L0 hm0, hEq]))

/-- Witness for C1: levels `-89 < -88` both map to 61 °F, `-89` is the
lowest level producing 61 °F, and the inverse lookup returns `-89`. -/
theorem inverse_tie_break_lowest_level_witness :
    getFahrenheitFrom (-89) = some 61 ∧ getFahrenheitFrom (-88) = some 61 ∧
    getLevelFromFahrenheit 61 = some (-89) := by
  refine ⟨by decide, by decide, ?_⟩
  refine inverse_tie_break_lowest_level (-89) (-88) 61 (by decide) (by decide) (by decide)
    (by decide) (by decide) ?_
  intro L0 hge hlt hEq
  have hm0 : L0 ∈ levelRange := mem_levelRange.mpr ⟨hge, by omega⟩
  rw [forward_eq L0 hm0] at hEq
  have hcalc : calculateTempFrom L0 = 50 - (-100 - L0) := by
    unfold calculateTempFrom
    rw [if_pos (by omega : L0 ≤ -89)]
  rw [hcalc] at hEq
  have := Option.some.inj hEq
  omega

/-- C2.  Temperature-stable round trip: every in-range level `L` has a
temperature `T = getFahrenheitFrom L`, the inverse lookup maps `T` to some
level `L'`, and `L'` maps forward to the same `T` — even though `L'` need
not equal `L`. -/
theorem temperature_round_trip (L : Int) (h1 : -100 ≤ L) (h2 : L ≤ 100) :
    ∃ T L', getFahrenheitFrom L = some T ∧ getLevelFromFahrenheit T = some L' ∧
      getFahrenheitFrom L' = some T := by
  have hm : L ∈ levelRange := mem_levelRange.mpr ⟨h1, h2⟩
  obtain ⟨hsome, ⟨hlo, hhi⟩, heq⟩ := roundtrip_all L hm
  obtain ⟨v, hv⟩ := Option.isSome_iff_exists.mp hsome
  refine ⟨calculateTempFrom L, v, forward_eq L hm, hv, ?_⟩
  have hgd : (getLevelFromFahrenheit (calculateTempFrom L)).getD 0 = v := by
    rw [hv]
    rfl
  rw [hgd] at hlo hhi heq
  have hm2 : v ∈ levelRange := mem_levelRange.mpr ⟨hlo, hhi⟩
  rw [forward_eq v hm2, heq]

/-- Witness for C2 at level 0: `getFahrenheitFrom 0 = 80`, the inverse
lookup maps 80 °F back to level `-3`, and level `-3` maps to 80 °F. -/
theorem temperature_round_trip_witness :
    getFahrenheitFrom 0 = some 80 ∧ getLevelFromFahrenheit 80 = some (-3) ∧
    getFahrenheitFrom (-3) = some 80 := by
  have h := temperature_round_trip 0 (by decide) (by decide)
  exact ⟨by decide, by decide, by decide⟩

/-- C3.  Monotonicity of the forward map: for in-range levels
`L1 ≤ L2`, the mapped temperatures satisfy `T1 ≤ T2` — no inversion at
the piecewise segment boundaries despite the rounding in each segment. -/
theorem temperature_monotone (L1 L2 T1 T2 : Int)
    (ha : -100 ≤ L1) (hb : L1 ≤ L2) (hc : L2 ≤ 100)
    (h1 : getFahrenheitFrom L1 = some T1) (h2 : getFahrenheitFrom L2 = some T2) :
    T1 ≤ T2 := by
  have hm1 : L1 ∈ levelRange := mem_levelRange.mpr ⟨ha, by omega⟩
  have hm2 : L2 ∈ levelRange := mem_levelRange.mpr ⟨by omega, hc⟩
  rw [forward_eq L1 hm1] at h1
  rw [forward_eq L2 hm2] at h2
  have e1 := Option.some.inj h1
  have e2 := Option.some.inj h2
  subst e1
  subst e2
  exact calc_mono L1 L2 ha hb hc

/-- Witness for C3: level `-50` maps to 69 °F, level `50` maps to 97 °F,
and the theorem yields `69 ≤ 97`. -/
theorem temperature_monotone_witness : (69 : Int) ≤ 97 :=
  temperature_monotone (-50) 50 69 97 (by decide) (by decide) (by decide)
    (by decide) (by decide)

end TwoWayTempMapper

namespace TwoWayTempMapperV2

/-!
### The accessory layer's revision of `TwoWayTempMapper`

The later revision of the mapper used by `platformAccessory.ts` keeps,
besides the °F/level tables, two Celsius tables filled under the same
first-write guard.  Only the members reached from `verifyInSyncTemps`
(`formatCelsius`, `levelToCelsius`) are consumed below, but the
construction is embedded whole.
-/

/-- JS `Math.trunc`: round toward zero. -/
def jsTrunc (q : ℚ) : Int := if q < 0 then ⌈q⌉ else ⌊q⌋

/-- `formatCelsius(degC)` = `Math.trunc(100 * degC) / 100`. -/
def formatCelsius (degC : ℚ) : ℚ := (jsTrunc (100 * degC) : ℚ) / 100

-- Anchor constants (identical values to the first revision)
def cooling_tempF_start : Int := 61
def cooling_tempF_end : Int := 80
def cooling_level_start : Int := -89
def cooling_level_end : Int := -1
def heating_tempF_start : Int := 81
def heating_tempF_end : Int := 113
def heating_level_start : Int := 2
def heating_level_end : Int := 101

def getCoolingTempF (level : Int) : Int :=
  cooling_tempF_start +
    jsRoundDiv ((cooling_tempF_end - cooling_tempF_start) * (level - cooling_level_start))
      (cooling_level_end - cooling_level_start)

def getHeatingTempF (level : Int) : Int :=
  heating_tempF_start +
    jsRoundDiv ((heating_tempF_end - heating_tempF_start) * (level - heating_level_start))
      (heating_level_end - heating_level_start)

def calculateTempF (level : Int) : Int :=
  if level ≤ -89 then
    50 - (-100 - level)
  else if level ≤ cooling_level_end then
    getCoolingTempF level
  else
    getHeatingTempF level

/-- The four `Record` tables of the revised class, as association lists
(most recent write first, `none` = `undefined`). -/
structure MapperState where
  tempsToLvlMap : List (Int × Int)
  lvlsToTempMap : List (Int × Int)
  celsiusToF : List (ℚ × Int)
  fahrenheitToC : List (Int × ℚ)

/-- `updateRecords(tempF, level)`: unconditional forward write, then the
three inverse/Celsius writes guarded by `if (!this.tempsToLvlMap[tempF])`. -/
def updateRecords (st : MapperState) (tempF level : Int) : MapperState :=
  let st1 := { st with lvlsToTempMap := (level, tempF) :: st.lvlsToTempMap }
  let tempC := formatCelsius (((tempF : ℚ) - 32) * 5 / 9)
  if jsFalsy (st1.tempsToLvlMap.lookup tempF) then
    { st1 with
      celsiusToF := (tempC, tempF) :: st1.celsiusToF
      fahrenheitToC := (tempF, tempC) :: st1.fahrenheitToC
      tempsToLvlMap := (tempF, level) :: st1.tempsToLvlMap }
  else
    st1

def generateMaps : MapperState :=
  TwoWayTempMapper.levelRange.foldl
    (fun st lvl => updateRecords st (calculateTempF lvl) lvl)
    { tempsToLvlMap := [], lvlsToTempMap := [], celsiusToF := [], fahrenheitToC := [] }

def tempMapper : MapperState := generateMaps

/-- `levelToCelsius(level)`: `this.fahrenheitToC[this.lvlsToTempMap[level]]`
(`undefined` propagates through the chained lookup). -/
def levelToCelsius (level : Int) : Option ℚ :=
  (tempMapper.lvlsToTempMap.lookup level).bind
    (fun tempF => tempMapper.fahrenheitToC.lookup tempF)

end TwoWayTempMapperV2

namespace EightSleepThermostatAccessory

/-!
### `platformAccessory.ts` — operating-state reconciler and mismatch check
-/

/-- HAP-defined `CurrentHeatingCoolingState` characteristic values
(constants of the host runtime, not of this repository). -/
def hapOFF : Int := 0
def hapHEAT : Int := 1
def hapCOOL : Int := 2

/-- `tempsAreEqual(current, target)`: `Math.abs(target - current) <= 0.55`. -/
def tempsAreEqual (current target : ℚ) : Bool :=
  decide (|target - current| ≤ 0.55)

/-- `characteristicValueForCurrentState(currentTemp, targetTemp, targetState)`. -/
def characteristicValueForCurrentState (currentTemp targetTemp : ℚ) (targetState : Int) : Int :=
  if targetState = 0 then
    hapOFF
  else if tempsAreEqual currentTemp targetTemp then
    hapOFF
  else if currentTemp < targetTemp then
    hapHEAT
  else
    hapCOOL

/-- `fetchTargetState()`: `accessoryIsOn ? 3 : 0`. -/
def fetchTargetState (accessoryIsOn : Bool) : Int :=
  if accessoryIsOn then 3 else 0

/-- `verifyInSyncTemps(targetC, targetLevel, receivedLevel)` — returns
whether the mismatch error is logged.  `formattedC !== clientTargetC`
compares a number with a possibly-`undefined` table entry. -/
def verifyInSyncTemps (targetC : ℚ) (targetLevel receivedLevel : Int) : Bool :=
  let formattedC := TwoWayTempMapperV2.formatCelsius targetC
  let clientTargetC := TwoWayTempMapperV2.levelToCelsius receivedLevel
  (some formattedC != clientTargetC) || (targetLevel != receivedLevel)

/-- C4.  Reconciler decision function: with intent off the state is OFF;
with intent on, temperatures within the 0.55° tolerance give IDLE
(displayed via the OFF characteristic value), a current temperature below
the target gives HEATING, and otherwise COOLING. -/
theorem reconciler_decision (currentTemp targetTemp : ℚ) (targetState : Int) :
    (targetState = 0 →
      characteristicValueForCurrentState currentTemp targetTemp targetState = hapOFF) ∧
    (targetState ≠ 0 → |targetTemp - currentTemp| ≤ 0.55 →
      characteristicValueForCurrentState currentTemp targetTemp targetState = hapOFF) ∧
    (targetState ≠ 0 → ¬(|targetTemp - currentTemp| ≤ 0.55) → currentTemp < targetTemp →
      characteristicValueForCurrentState currentTemp targetTemp targetState = hapHEAT) ∧
    (targetState ≠ 0 → ¬(|targetTemp - currentTemp| ≤ 0.55) → ¬(currentTemp < targetTemp) →
      characteristicValueForCurrentState currentTemp targetTemp targetState = hapCOOL) := by
  refine ⟨?_, ?_, ?_, ?_⟩
  · intro h
    simp [characteristicValueForCurrentState, h]
  · intro h1 h2
    simp [characteristicValueForCurrentState, tempsAreEqual, h1, h2]
  · intro h1 h2 h3
    simp [characteristicValueForCurrentState, tempsAreEqual, h1, h2, h3]
  · intro h1 h2 h3
    simp [characteristicValueForCurrentState, tempsAreEqual, h1, h2, h3]

/-- Witness for C4: the spec's four boundary examples, with intent on
encoded as target state 3 (AUTO) and intent off as 0. -/
theorem reconciler_decision_witness :
    characteristicValueForCurrentState 70 70.4 3 = hapOFF ∧
    characteristicValueForCurrentState 70 71 3 = hapHEAT ∧
    characteristicValueForCurrentState 72 70 3 = hapCOOL ∧
    characteristicValueForCurrentState 25 40 0 = hapOFF :=
  ⟨(reconciler_decision 70 70.4 3).2.1 (by decide) (by norm_num [abs_le]),
   (reconciler_decision 70 71 3).2.2.1 (by decide) (by norm_num [abs_le]) (by norm_num),
   (reconciler_decision 72 70 3).2.2.2 (by decide) (by norm_num [abs_le]) (by norm_num),
   (reconciler_decision 25 40 0).1 rfl⟩

end EightSleepThermostatAccessory

namespace EightSleepConnection

/-!
### `eightSleepConnection.ts` — session lifecycle and primary-user resolution

Network and clock effects are passed in explicitly: `parseDate` stands for
`new Date(string).valueOf()` (`none` = `NaN`), `now` for `Date.now()`, and
the possible responses of the HTTP calls are arguments.
-/

structure Session where
  expirationDate : String
  userId : String
  token : String

/-- `verifyFields(session)`: `(session.token && session.expirationDate && session.userId) ? true : false`
— JS truthiness of strings, so all three fields must be non-empty. -/
def verifyFields (s : Session) : Bool :=
  (s.token != "") && (s.expirationDate != "") && (s.userId != "")

/-- `isValid(session)`: fields present and
`new Date(session.expirationDate).valueOf() > Date.now() + 1000 * 60 * 20`
(a 20-minute safety margin; an unparseable date gives `NaN`, and every
comparison with `NaN` is false). -/
def isValid (parseDate : String → Option Int) (now : Int) (s : Session) : Bool :=
  verifyFields s &&
    (match parseDate s.expirationDate with
     | some tokenExpDate => decide (tokenExpDate > now + 1000 * 60 * 20)
     | none => false)

/-- Observable outcome of `prepareSession()`: the resolved value, how many
`POST /login` calls were made, whether the session cache file was erased,
and the sessions written to the cache. -/
structure PrepareOutcome where
  returned : Option Session
  logins : Nat
  cacheErased : Bool
  cacheWrites : List Session

/-- `login()`: `POST /login`; throws on a network failure or an invalid
session in the response, otherwise writes the session to the cache and
returns it. -/
def login (parseDate : String → Option Int) (now : Int) (postResponse : Option Session) :
    Except String (Session × List Session) :=
  match postResponse with
  | none => Except.error "login request failed"
  | some session =>
    if isValid parseDate now session then
      Except.ok (session, [session])
    else
      Except.error "Unexpected issue with Eight Sleep API session"

/-- `prepareSession()`: reuse the cached session when it is valid,
otherwise erase the cache entry and log in once; any error is caught and
resolves to `null`.  (`cached = none` also covers a failed cache read,
which `loadCachedSession` catches.) -/
def prepareSession (parseDate : String → Option Int) (now : Int)
    (cached : Option Session) (postResponse : Option Session) : PrepareOutcome :=
  match cached with
  | some session =>
    if isValid parseDate now session then
      { returned := some session, logins := 0, cacheErased := false, cacheWrites := [] }
    else
      match login parseDate now postResponse with
      | Except.ok (fresh, writes) =>
        { returned := some fresh, logins := 1, cacheErased := true, cacheWrites := writes }
      | Except.error _ =>
        { returned := none, logins := 1, cacheErased := true, cacheWrites := [] }
  | none =>
    match login parseDate now postResponse with
    | Except.ok (fresh, writes) =>
      { returned := some fresh, logins := 1, cacheErased := true, cacheWrites := writes }
    | Except.error _ =>
      { returned := none, logins := 1, cacheErased := true, cacheWrites := [] }

/-- C5.  Session validity boundary: `prepareSession` returns the cached
session without any login exactly when the cached session has all three
fields non-empty and its expiry lies more than the 20-minute safety
margin past `now`; otherwise it erases the cache entry and performs
exactly one credential login, persisting a fresh valid session to the
cache before returning it. -/
theorem prepareSession_validity_boundary (parseDate : String → Option Int) (now : Int)
    (cached postResponse : Option Session) :
    (∀ s, cached = some s → isValid parseDate now s = true →
      prepareSession parseDate now cached postResponse =
        { returned := some s, logins := 0, cacheErased := false, cacheWrites := [] }) ∧
    ((cached = none ∨ ∃ s, cached = some s ∧ isValid parseDate now s = false) →
      (prepareSession parseDate now cached postResponse).cacheErased = true ∧
      (prepareSession parseDate now cached postResponse).logins = 1) ∧
    (∀ fresh, postResponse = some fresh → isValid parseDate now fresh = true →
      (cached = none ∨ ∃ s, cached = some s ∧ isValid parseDate now s = false) →
      prepareSession parseDate now cached postResponse =
        { returned := some fresh, logins := 1, cacheErased := true, cacheWrites := [fresh] }) := by
  refine ⟨?_, ?_, ?_⟩
  · intro s hs hv
    subst hs
    simp [prepareSession, hv]
  · intro h
    rcases h with hnone | ⟨s, hs, hv⟩
    · subst hnone
      cases hl : login parseDate now postResponse with
      | ok p => simp [prepareSession, hl]
      | error e => simp [prepareSession, hl]
    · subst hs
      cases hl : login parseDate now postResponse with
      | ok p => simp [prepareSession, hv, hl]
      | error e => simp [prepareSession, hv, hl]
  · intro fresh hp hvf h
    subst hp
    have hl : login parseDate now (some fresh) = Except.ok (fresh, [fresh]) := by
      simp [login, hvf]
    rcases h with hnone | ⟨s, hs, hv⟩
    · subst hnone
      simp [prepareSession, hl]
    · subst hs
      simp [prepareSession, hv, hl]

/-- Witness for C5: a well-formed cached session expiring far past the
margin is reused with zero logins, no cache erase and no cache write. -/
theorem prepareSession_validity_boundary_witness :
    prepareSession (fun _ => some 2000000000) 0
      (some { expirationDate := "2033-05-01", userId := "u1", token := "t1" }) none =
      { returned := some { expirationDate := "2033-05-01", userId := "u1", token := "t1" },
        logins := 0, cacheErased := false, cacheWrites := [] } :=
  (prepareSession_validity_boundary (fun _ => some 2000000000) 0
      (some { expirationDate := "2033-05-01", userId := "u1", token := "t1" }) none).1
    { expirationDate := "2033-05-01", userId := "u1", token := "t1" } rfl (by decide)

structure CurrentDevice where
  id : String
  side : String

structure PrimaryUser where
  currentDevice : CurrentDevice

/-- `verifyDeviceFor(user)`: `null` unless the user and both device
fields are truthy (non-empty). -/
def verifyDeviceFor (user : Option PrimaryUser) : Option CurrentDevice :=
  match user with
  | none => none
  | some u =>
    if u.currentDevice.id == "" || u.currentDevice.side == "" then none
    else some u.currentDevice

/-- `fetchPrimaryUser()`: throws `'No session'` when the awaited session
is `null`; otherwise performs `GET /users/me` (whose outcome is
`apiResponse`) and throws when no device can be verified.  (On success
the source also persists the profile to the cache.) -/
def fetchPrimaryUser (session : Option Session) (apiResponse : Except String PrimaryUser) :
    Except String CurrentDevice :=
  match session with
  | none => Except.error "No session"
  | some _ =>
    match apiResponse with
    | Except.error e => Except.error e
    | Except.ok user =>
      match verifyDeviceFor (some user) with
      | none => Except.error "Unable to fetch user profile & current device from client"
      | some device => Except.ok device

/-- `preparePrimaryUser()`: cached device if verifiable, else fetch; the
whole body is wrapped in `try/catch`, so any error is logged at debug
level and the promise resolves to `null` — it never rejects. -/
def preparePrimaryUser (cachedUser : Option PrimaryUser) (session : Option Session)
    (apiResponse : Except String PrimaryUser) : Except String (Option CurrentDevice) :=
  match verifyDeviceFor cachedUser with
  | some device => Except.ok (some device)
  | none =>
    match fetchPrimaryUser session apiResponse with
    | Except.ok device => Except.ok (some device)
    | Except.error _ => Except.ok none

/-- The null-check at the top of `discoverDevices()` in `platform.ts`:
`if (!this.connection || !primaryUserDevice || !session) { throw new Error(...) }`. -/
def discoverDevicesCheck (primaryUserDevice : Option CurrentDevice) (session : Option Session) :
    Except String Unit :=
  if primaryUserDevice.isNone || session.isNone then
    Except.error "Unexpected failure occured during plugin load."
  else
    Except.ok ()

/-- Counterexample to C9: with a null session (and nothing usable in the
profile cache), `preparePrimaryUser` resolves to the benign value `null`
instead of rethrowing the `'No session'` error raised inside
`fetchPrimaryUser`. -/
theorem preparePrimaryUser_no_session_counterexample :
    fetchPrimaryUser none (Except.error "network unreachable") = Except.error "No session" ∧
    preparePrimaryUser none none (Except.error "network unreachable") = Except.ok none ∧
    preparePrimaryUser none none (Except.error "network unreachable") ≠
      Except.error "No session" := by
  refine ⟨rfl, rfl, ?_⟩
  simp [preparePrimaryUser, fetchPrimaryUser, verifyDeviceFor]

/-- C9 (amended): when no session can be established, the inner
`fetchPrimaryUser` fails with the `'No session'` error and is not
retried, but `preparePrimaryUser` catches the error and resolves to
`null`; the failure is surfaced to startup by `discoverDevices`, which
throws on the null device. -/
theorem preparePrimaryUser_no_session_fails_at_startup
    (cachedUser : Option PrimaryUser) (apiResponse : Except String PrimaryUser)
    (sessionAtStartup : Option Session)
    (hcache : verifyDeviceFor cachedUser = none) :
    fetchPrimaryUser none apiResponse = Except.error "No session" ∧
    preparePrimaryUser cachedUser none apiResponse = Except.ok none ∧
    discoverDevicesCheck none sessionAtStartup =
      Except.error "Unexpected failure occured during plugin load." := by
  refine ⟨rfl, ?_, ?_⟩
  · simp [preparePrimaryUser, hcache, fetchPrimaryUser]
  · simp [discoverDevicesCheck]

/-- Witness for the amended C9 at empty cache and no session. -/
theorem preparePrimaryUser_no_session_fails_at_startup_witness :
    preparePrimaryUser none none (Except.error "boot failure") = Except.ok none ∧
    discoverDevicesCheck none (none : Option Session) =
      Except.error "Unexpected failure occured during plugin load." :=
  ⟨(preparePrimaryUser_no_session_fails_at_startup none (Except.error "boot failure") none rfl).2.1,
   (preparePrimaryUser_no_session_fails_at_startup none (Except.error "boot failure") none rfl).2.2⟩

end EightSleepConnection

/-!
### `clientAdapter.ts` — adaptive polling caches

Module-level data types of the file, then the two adapter classes.
Asynchrony is modelled by passing the outcome of each network call as an
explicit argument and by an event list (controller activity / timer
ticks) driving each cache's state.
-/

/-- `CurrentState`: `{ type: DeviceMode }`.  The mode is kept as the raw
string because the API also answers variants such as `'smart:bedtime'`. -/
structure CurrentState where
  type : String

/-- `DeviceMode.on = 'smart'`, `DeviceMode.off = 'off'`. -/
def DeviceMode_on : String := "smart"
def DeviceMode_off : String := "off"

structure UserSettings where
  currentLevel : Int
  currentState : CurrentState

structure SharedDeviceSettings where
  leftHeatingLevel : Int
  leftTargetHeatingLevel : Int
  leftNowHeating : Bool
  rightHeatingLevel : Int
  rightTargetHeatingLevel : Int
  rightNowHeating : Bool
  priming : Bool
  needsPriming : Bool
  hasWater : Bool

structure SharedDeviceResponse where
  result : SharedDeviceSettings

inductive Side where
  | left
  | right
deriving DecidableEq

namespace Client

/-- `clientRequest.ts` `get`: awaits the HTTP call and catches any error,
returning `null` in that case. -/
def get {α : Type} (outcome : Except String α) : Option α :=
  match outcome with
  | Except.ok v => some v
  | Except.error _ => none

/-- `clientRequest.ts` `put`: same catch-to-`null` behaviour as `get`. -/
def put {α : Type} (outcome : Except String α) : Option α :=
  match outcome with
  | Except.ok v => some v
  | Except.error _ => none

end Client

namespace PlatformClientAdapter

/-- Mutable fields of `PlatformClientAdapter`: the held (resolved) value
of `sharedDeviceSettings`, `lastActive`, and whether `refreshInterval`
currently holds a live timer. -/
structure State where
  sharedDeviceSettings : Option SharedDeviceSettings
  lastActive : Int
  refreshInterval : Bool

/-- `loadSharedDeviceState()`: `response ? response.result : null`, with
any thrown error caught, logged and mapped to `null`. -/
def loadSharedDeviceState (outcome : Except String SharedDeviceResponse) :
    Option SharedDeviceSettings :=
  match Client.get outcome with
  | some response => some response.result
  | none => none

/-- `clearRefreshIfNotActive()` evaluated at time `now`:
cancel the timer when `lastActive < Date.now() - 1000 * 90`. -/
def clearRefreshIfNotActive (s : State) (now : Int) : State :=
  if s.refreshInterval && decide (s.lastActive < now - 1000 * 90) then
    { s with refreshInterval := false }
  else
    s

/-- One timer tick, `refreshState`: replace the held value with a fresh
fetch, then run the inactivity check. -/
def refreshState (s : State) (now : Int) (outcome : Except String SharedDeviceResponse) :
    State :=
  clearRefreshIfNotActive { s with sharedDeviceSettings := loadSharedDeviceState outcome } now

/-- `checkForUpdates(side)`: read the held value (0 when `null`). -/
def checkForUpdates (s : State) (side : Side) : Int :=
  if side = Side.left then
    match s.sharedDeviceSettings with
    | some currentSettings => currentSettings.leftHeatingLevel
    | none => 0
  else
    match s.sharedDeviceSettings with
    | some currentSettings => currentSettings.rightHeatingLevel
    | none => 0

/-- `getCurrentLevelForSide(side)` at time `now`: record activity; when
idle, fetch immediately and start the recurring timer.  Returns the new
state, the number of fetches performed, and the level handed back. -/
def getCurrentLevelForSide (s : State) (now : Int)
    (outcome : Except String SharedDeviceResponse) (side : Side) : State × Nat × Int :=
  let s1 := { s with lastActive := now }
  if s1.refreshInterval then
    (s1, 0, checkForUpdates s1 side)
  else
    let s2 := { s1 with
      sharedDeviceSettings := loadSharedDeviceState outcome
      refreshInterval := true }
    (s2, 1, checkForUpdates s2 side)

/-- Events observable by the cache: a controller call and a timer tick. -/
inductive Event where
  | getActive (now : Int) (outcome : Except String SharedDeviceResponse) (side : Side)
  | tick (now : Int) (outcome : Except String SharedDeviceResponse)

def Event.isTick : Event → Bool
  | Event.tick _ _ => true
  | Event.getActive _ _ _ => false

/-- Small-step semantics of the cache; the second component counts the
network fetches the event causes.  A tick on an idle state does nothing,
because a cancelled timer no longer fires. -/
def step (s : State) : Event → State × Nat
  | Event.getActive now outcome side =>
    let r := getCurrentLevelForSide s now outcome side
    (r.1, r.2.1)
  | Event.tick now outcome =>
    if s.refreshInterval then
      (refreshState s now outcome, 1)
    else
      (s, 0)

/-- Run a list of events, accumulating the fetch count. -/
def run (s : State) : List Event → State × Nat
  | [] => (s, 0)
  | e :: es =>
    let r := step s e
    let r2 := run r.1 es
    (r2.1, r.2 + r2.2)

/-- While idle, timer ticks perform no fetches and change nothing. -/
theorem run_ticks_idle (evs : List Event) :
    ∀ s : State, s.refreshInterval = false → (∀ e ∈ evs, e.isTick = true) →
      run s evs = (s, 0) := by
  induction evs with
  | nil =>
    intro s _ _
    rfl
  | cons e es ih =>
    intro s hidle hall
    have he := hall e (List.mem_cons_self e es)
    cases e with
    | getActive now outcome side => simp [Event.isTick] at he
    | tick now outcome =>
      have hstep : step s (Event.tick now outcome) = (s, 0) := by
        simp [step, hidle]
      have hrest := ih s hidle (fun e' he' => hall e' (List.mem_cons_of_mem _ he'))
      simp [run, hstep, hrest]

end PlatformClientAdapter

namespace AccessoryClientAdapter

/-- Mutable fields of `AccessoryClientAdapter`. -/
structure State where
  currentUserSettings : Option UserSettings
  lastActive : Int
  refreshInterval : Bool

/-- `fetchCurrentSettings()`: `Client.get` already maps a network error
to `null`; the surrounding `try/catch` logs and returns `null` too. -/
def fetchCurrentSettings (outcome : Except String UserSettings) : Option UserSettings :=
  Client.get outcome

/-- `clearRefreshIfNotActive()` at time `now` (90-second window). -/
def clearRefreshIfNotActive (s : State) (now : Int) : State :=
  if s.refreshInterval && decide (s.lastActive < now - 1000 * 90) then
    { s with refreshInterval := false }
  else
    s

/-- One timer tick, `refreshState`: replace the held value, then run the
inactivity check. -/
def refreshState (s : State) (now : Int) (outcome : Except String UserSettings) : State :=
  clearRefreshIfNotActive { s with currentUserSettings := fetchCurrentSettings outcome } now

/-- `setAccessoryAsActive()` at time `now`: record activity; when idle,
fetch immediately and restart the recurring timer.  The second component
counts fetches. -/
def setAccessoryAsActive (s : State) (now : Int) (outcome : Except String UserSettings) :
    State × Nat :=
  let s1 := { s with lastActive := now }
  if s1.refreshInterval then
    (s1, 0)
  else
    ({ s1 with currentUserSettings := fetchCurrentSettings outcome, refreshInterval := true }, 1)

/-- `getUserTargetLevel()`: mark active, await the held settings, return
`currentLevel` (0 when the held value is `null`). -/
def getUserTargetLevel (s : State) (now : Int) (outcome : Except String UserSettings) :
    State × Int :=
  let r := setAccessoryAsActive s now outcome
  match r.1.currentUserSettings with
  | some settings => (r.1, settings.currentLevel)
  | none => (r.1, 0)

/-- `getAccessoryIsOn()`: mark active, await the held settings, return
`settings?.currentState.type !== DeviceMode.off` — which is `true` when
the held value is `null` (`undefined ≠ 'off'`). -/
def getAccessoryIsOn (s : State) (now : Int) (outcome : Except String UserSettings) :
    State × Bool :=
  let r := setAccessoryAsActive s now outcome
  match r.1.currentUserSettings with
  | some settings => (r.1, settings.currentState.type != DeviceMode_off)
  | none => (r.1, true)

/-- `checkForUpdates()`: `[targetState, targetLevel]`, `[0, 0]` when the
held value is `null`. -/
def checkForUpdates (s : State) : Int × Int :=
  match s.currentUserSettings with
  | some settings =>
    ((if settings.currentState.type == DeviceMode_off then 0 else 3), settings.currentLevel)
  | none => (0, 0)

/-- `updateCurrentSettingsFrom(response)`: mark active, then replace the
held value with the server's acknowledged response. -/
def updateCurrentSettingsFrom (s : State) (now : Int)
    (activationOutcome : Except String UserSettings) (response : Option UserSettings) : State :=
  let s1 := (setAccessoryAsActive s now activationOutcome).1
  { s1 with currentUserSettings := response }

/-- `updateUserTargetLevel(newLevel)`: `PUT` the new level, store the
acknowledged response, and return `response ? response.currentLevel : newLevel`. -/
def updateUserTargetLevel (s : State) (newLevel : Int) (now : Int)
    (activationOutcome putOutcome : Except String UserSettings) : State × Int :=
  let response := Client.put putOutcome
  let s1 := updateCurrentSettingsFrom s now activationOutcome response
  match response with
  | some r => (s1, r.currentLevel)
  | none => (s1, newLevel)

/-- C6.  Local write-through with mismatch detection: after
`updateUserTargetLevel` receives the server's acknowledged `UserSettings`
response to the `PUT`, the held value is exactly that response, reads see
the acknowledged level immediately, and a difference between the
requested and the acknowledged level makes `verifyInSyncTemps` log the
mismatch error (there is no retry — the update is a single `PUT`). -/
theorem updateUserTargetLevel_write_through
    (s : State) (newLevel now : Int)
    (activationOutcome putOutcome : Except String UserSettings) (r : UserSettings)
    (hput : Client.put putOutcome = some r) :
    (updateUserTargetLevel s newLevel now activationOutcome putOutcome).1.currentUserSettings =
      some r ∧
    (updateUserTargetLevel s newLevel now activationOutcome putOutcome).2 = r.currentLevel ∧
    checkForUpdates (updateUserTargetLevel s newLevel now activationOutcome putOutcome).1 =
      ((if r.currentState.type == DeviceMode_off then 0 else 3), r.currentLevel) ∧
    (∀ targetC : ℚ, newLevel ≠ r.currentLevel →
      EightSleepThermostatAccessory.verifyInSyncTemps targetC newLevel r.currentLevel = true) := by
  refine ⟨?_, ?_, ?_, ?_⟩
  · simp [updateUserTargetLevel, updateCurrentSettingsFrom, hput]
  · simp [updateUserTargetLevel, updateCurrentSettingsFrom, hput]
  · simp [updateUserTargetLevel, updateCurrentSettingsFrom, checkForUpdates, hput]
  · intro targetC hne
    have h2 : (newLevel != r.currentLevel) = true := bne_iff_ne.mpr hne
    simp only [EightSleepThermostatAccessory.verifyInSyncTemps, h2, Bool.or_true]

/-- Witness for C6: requesting level 50 while the server acknowledges 48
leaves 48 in the cache, returns 48, and logs the mismatch. -/
theorem updateUserTargetLevel_write_through_witness :
    (updateUserTargetLevel
        { currentUserSettings := some { currentLevel := 10, currentState := { type := "smart" } },
          lastActive := 0, refreshInterval := true }
        50 5 (Except.error "not used")
        (Except.ok { currentLevel := 48, currentState := { type := "smart" } })).1.currentUserSettings =
      some { currentLevel := 48, currentState := { type := "smart" } } ∧
    (updateUserTargetLevel
        { currentUserSettings := some { currentLevel := 10, currentState := { type := "smart" } },
          lastActive := 0, refreshInterval := true }
        50 5 (Except.error "not used")
        (Except.ok { currentLevel := 48, currentState := { type := "smart" } })).2 = 48 ∧
    EightSleepThermostatAccessory.verifyInSyncTemps 10 50 48 = true :=
  ⟨(updateUserTargetLevel_write_through
      { currentUserSettings := some { currentLevel := 10, currentState := { type := "smart" } },
        lastActive := 0, refreshInterval := true }
      50 5 (Except.error "not used")
      (Except.ok { currentLevel := 48, currentState := { type := "smart" } })
      { currentLevel := 48, currentState := { type := "smart" } } rfl).1,
   (updateUserTargetLevel_write_through
      { currentUserSettings := some { currentLevel := 10, currentState := { type := "smart" } },
        lastActive := 0, refreshInterval := true }
      50 5 (Except.error "not used")
      (Except.ok { currentLevel := 48, currentState := { type := "smart" } })
      { currentLevel := 48, currentState := { type := "smart" } } rfl).2.1,
   (updateUserTargetLevel_write_through
      { currentUserSettings := some { currentLevel := 10, currentState := { type := "smart" } },
        lastActive := 0, refreshInterval := true }
      50 5 (Except.error "not used")
      (Except.ok { currentLevel := 48, currentState := { type := "smart" } })
      { currentLevel := 48, currentState := { type := "smart" } } rfl).2.2.2 10 (by decide)⟩

/-- Counterexample to C8: at a refresh tick whose fetch fails, the
previously held value does NOT remain in place — it is replaced by the
`null` result of the failed fetch. -/
theorem refresh_failure_clobbers_held_value :
    (refreshState
        { currentUserSettings := some { currentLevel := 50, currentState := { type := "smart" } },
          lastActive := 0, refreshInterval := true }
        1000 (Except.error "request failed")).currentUserSettings = none ∧
    (refreshState
        { currentUserSettings := some { currentLevel := 50, currentState := { type := "smart" } },
          lastActive := 0, refreshInterval := true }
        1000 (Except.error "request failed")).currentUserSettings ≠
      some { currentLevel := 50, currentState := { type := "smart" } } := by
  refine ⟨rfl, ?_⟩
  intro h
  simp [refreshState, clearRefreshIfNotActive, fetchCurrentSettings, Client.get] at h

/-- C8 (amended): at every refresh tick whose fetch fails, the failure is
caught and mapped to `null` instead of being thrown into the timer loop,
and the recurring timer keeps running while the activity window has not
lapsed — but the held value is replaced by `null`, not left in place. -/
theorem refresh_failure_caught_and_clears_value
    (sa : State) (sp : PlatformClientAdapter.State) (now : Int) (e : String) :
    fetchCurrentSettings (Except.error e) = none ∧
    (refreshState sa now (Except.error e)).currentUserSettings = none ∧
    (sa.refreshInterval = true → ¬(sa.lastActive < now - 1000 * 90) →
      (refreshState sa now (Except.error e)).refreshInterval = true) ∧
    PlatformClientAdapter.loadSharedDeviceState (Except.error e) = none ∧
    (PlatformClientAdapter.refreshState sp now (Except.error e)).sharedDeviceSettings = none ∧
    (sp.refreshInterval = true → ¬(sp.lastActive < now - 1000 * 90) →
      (PlatformClientAdapter.refreshState sp now (Except.error e)).refreshInterval = true) := by
  refine ⟨rfl, ?_, ?_, rfl, ?_, ?_⟩
  · simp only [refreshState, clearRefreshIfNotActive, fetchCurrentSettings, Client.get]
    split
    · rfl
    · rfl
  · intro h1 h2
    have hge : ¬(sa.lastActive < now - 90000) := by omega
    simp [refreshState, clearRefreshIfNotActive, fetchCurrentSettings, Client.get, h1, hge]
  · simp only [PlatformClientAdapter.refreshState, PlatformClientAdapter.clearRefreshIfNotActive,
      PlatformClientAdapter.loadSharedDeviceState, Client.get]
    split
    · rfl
    · rfl
  · intro h1 h2
    have hge : ¬(sp.lastActive < now - 90000) := by omega
    simp [PlatformClientAdapter.refreshState, PlatformClientAdapter.clearRefreshIfNotActive,
      PlatformClientAdapter.loadSharedDeviceState, Client.get, h1, hge]

/-- Witness for the amended C8: a failed fetch at time 1000 with last
activity at 0 clears the held value while the timer keeps running. -/
theorem refresh_failure_caught_and_clears_value_witness :
    (refreshState
        { currentUserSettings := some { currentLevel := 50, currentState := { type := "smart" } },
          lastActive := 0, refreshInterval := true }
        1000 (Except.error "network")).currentUserSettings = none ∧
    (refreshState
        { currentUserSettings := some { currentLevel := 50, currentState := { type := "smart" } },
          lastActive := 0, refreshInterval := true }
        1000 (Except.error "network")).refreshInterval = true :=
  ⟨(refresh_failure_caught_and_clears_value
      { currentUserSettings := some { currentLevel := 50, currentState := { type := "smart" } },
        lastActive := 0, refreshInterval := true }
      { sharedDeviceSettings := none, lastActive := 0, refreshInterval := true }
      1000 "network").2.1,
   (refresh_failure_caught_and_clears_value
      { currentUserSettings := some { currentLevel := 50, currentState := { type := "smart" } },
        lastActive := 0, refreshInterval := true }
      { sharedDeviceSettings := none, lastActive := 0, refreshInterval := true }
      1000 "network").2.2.1 rfl (by decide)⟩

/-- C10.  Implicit null-settings defaults at the read interface: while
polling is active with a `null` held value, `getAccessoryIsOn` reports
the accessory as on (`true`), `getUserTargetLevel` returns level 0, and
`checkForUpdates` returns target state 0 (off) with level 0 — so the two
read paths disagree about the on/off state. -/
theorem null_settings_read_defaults
    (s : State) (now : Int) (outcome : Except String UserSettings)
    (hpoll : s.refreshInterval = true) (hnull : s.currentUserSettings = none) :
    (getAccessoryIsOn s now outcome).2 = true ∧
    (getUserTargetLevel s now outcome).2 = 0 ∧
    checkForUpdates s = (0, 0) ∧
    EightSleepThermostatAccessory.fetchTargetState (getAccessoryIsOn s now outcome).2 ≠
      (checkForUpdates s).1 := by
  have hact : (setAccessoryAsActive s now outcome).1.currentUserSettings = none := by
    simp [setAccessoryAsActive, hpoll, hnull]
  refine ⟨?_, ?_, ?_, ?_⟩
  · simp [getAccessoryIsOn, hact]
  · simp [getUserTargetLevel, hact]
  · simp [checkForUpdates, hnull]
  · simp [getAccessoryIsOn, hact, checkForUpdates, hnull,
      EightSleepThermostatAccessory.fetchTargetState]

/-- Witness for C10 at a concrete active state holding `null`. -/
theorem null_settings_read_defaults_witness :
    (getAccessoryIsOn { currentUserSettings := none, lastActive := 0, refreshInterval := true }
      7 (Except.error "offline")).2 = true ∧
    (getUserTargetLevel { currentUserSettings := none, lastActive := 0, refreshInterval := true }
      7 (Except.error "offline")).2 = 0 ∧
    checkForUpdates { currentUserSettings := none, lastActive := 0, refreshInterval := true } =
      (0, 0) :=
  ⟨(null_settings_read_defaults
      { currentUserSettings := none, lastActive := 0, refreshInterval := true }
      7 (Except.error "offline") rfl rfl).1,
   (null_settings_read_defaults
      { currentUserSettings := none, lastActive := 0, refreshInterval := true }
      7 (Except.error "offline") rfl rfl).2.1,
   (null_settings_read_defaults
      { currentUserSettings := none, lastActive := 0, refreshInterval := true }
      7 (Except.error "offline") rfl rfl).2.2.1⟩

end AccessoryClientAdapter

namespace PlatformClientAdapter

/-- C7.  Polling lifecycle of both caches: a getActive-style call
(`getCurrentLevelForSide` / `setAccessoryAsActive`) made while idle
fetches immediately and starts the recurring timer; at a timer tick
within the 90-second activity window the cache fetches again and keeps
polling; at a tick after the window has lapsed the timer is cancelled;
and while idle, ticks cause no fetches and no state change until the
next getActive-style call. -/
theorem polling_lifecycle
    (sp : State) (sa : AccessoryClientAdapter.State) (now : Int)
    (op : Except String SharedDeviceResponse) (oa : Except String UserSettings)
    (side : Side) (evs : List Event) :
    (sp.refreshInterval = false →
      step sp (Event.getActive now op side) =
        ({ sharedDeviceSettings := loadSharedDeviceState op,
           lastActive := now, refreshInterval := true }, 1)) ∧
    (sp.refreshInterval = true → ¬(sp.lastActive < now - 1000 * 90) →
      step sp (Event.tick now op) =
        ({ sharedDeviceSettings := loadSharedDeviceState op,
           lastActive := sp.lastActive, refreshInterval := true }, 1)) ∧
    (sp.refreshInterval = true → sp.lastActive < now - 1000 * 90 →
      (step sp (Event.tick now op)).1.refreshInterval = false) ∧
    (sp.refreshInterval = false → (∀ e ∈ evs, e.isTick = true) →
      run sp evs = (sp, 0)) ∧
    (sa.refreshInterval = false →
      AccessoryClientAdapter.setAccessoryAsActive sa now oa =
        ({ currentUserSettings := AccessoryClientAdapter.fetchCurrentSettings oa,
           lastActive := now, refreshInterval := true }, 1)) ∧
    (sa.refreshInterval = true → ¬(sa.lastActive < now - 1000 * 90) →
      AccessoryClientAdapter.refreshState sa now oa =
        { currentUserSettings := AccessoryClientAdapter.fetchCurrentSettings oa,
          lastActive := sa.lastActive, refreshInterval := true }) ∧
    (sa.refreshInterval = true → sa.lastActive < now - 1000 * 90 →
      (AccessoryClientAdapter.refreshState sa now oa).refreshInterval = false) := by
  refine ⟨?_, ?_, ?_, ?_, ?_, ?_, ?_⟩
  · intro h
    simp [step, getCurrentLevelForSide, h]
  · intro h1 h2
    have hge : ¬(sp.lastActive < now - 90000) := by omega
    simp [step, refreshState, clearRefreshIfNotActive, h1, hge]
  · intro h1 h2
    have hlt : sp.lastActive < now - 90000 := by omega
    simp [step, refreshState, clearRefreshIfNotActive, h1, hlt]
  · intro h1 h2
    exact run_ticks_idle evs sp h1 h2
  · intro h
    simp [AccessoryClientAdapter.setAccessoryAsActive, h]
  · intro h1 h2
    have hge : ¬(sa.lastActive < now - 90000) := by omega
    simp [AccessoryClientAdapter.refreshState, AccessoryClientAdapter.clearRefreshIfNotActive,
      h1, hge]
  · intro h1 h2
    have hlt : sa.lastActive < now - 90000 := by omega
    simp [AccessoryClientAdapter.refreshState, AccessoryClientAdapter.clearRefreshIfNotActive,
      h1, hlt]

/-- Witness for C7: concrete idle/active states — an idle call fetches
and starts polling; a tick 100 s after the last activity cancels the
timer; two ticks on an idle cache fetch nothing; the accessory-side call
behaves the same. -/
theorem polling_lifecycle_witness :
    step { sharedDeviceSettings := none, lastActive := 0, refreshInterval := false }
        (Event.getActive 5 (Except.error "net") Side.left) =
      ({ sharedDeviceSettings := none, lastActive := 5, refreshInterval := true }, 1) ∧
    (step { sharedDeviceSettings := none, lastActive := 0, refreshInterval := true }
        (Event.tick 100000 (Except.error "net"))).1.refreshInterval = false ∧
    run { sharedDeviceSettings := none, lastActive := 0, refreshInterval := false }
        [Event.tick 10 (Except.error "net"), Event.tick 20 (Except.error "net")] =
      ({ sharedDeviceSettings := none, lastActive := 0, refreshInterval := false }, 0) ∧
    AccessoryClientAdapter.setAccessoryAsActive
        { currentUserSettings := none, lastActive := 0, refreshInterval := false }
        5 (Except.error "net") =
      ({ currentUserSettings := none, lastActive := 5, refreshInterval := true }, 1) :=
  ⟨(polling_lifecycle { sharedDeviceSettings := none, lastActive := 0, refreshInterval := false }
      { currentUserSettings := none, lastActive := 0, refreshInterval := false }
      5 (Except.error "net") (Except.error "net") Side.left []).1 rfl,
   (polling_lifecycle { sharedDeviceSettings := none, lastActive := 0, refreshInterval := true }
      { currentUserSettings := none, lastActive := 0, refreshInterval := false }
      100000 (Except.error "net") (Except.error "net") Side.left []).2.2.1 rfl (by decide),
   (polling_lifecycle { sharedDeviceSettings := none, lastActive := 0, refreshInterval := false }
      { currentUserSettings := none, lastActive := 0, refreshInterval := false }
      0 (Except.error "net") (Except.error "net") Side.left
      [Event.tick 10 (Except.error "net"), Event.tick 20 (Except.error "net")]).2.2.2.1 rfl
      (by intro e he; fin_cases he <;> rfl),
   (polling_lifecycle { sharedDeviceSettings := none, lastActive := 0, refreshInterval := false }
      { currentUserSettings := none, lastActive := 0, refreshInterval := false }
      5 (Except.error "net") (Except.error "net") Side.left []).2.2.2.2.1 rfl⟩

end PlatformClientAdapter
